import Mathlib

/-!
Verification of the Discotify background service worker (its album matching,
search orchestration and token lifecycle), shallowly embedded in Lean 4.
Each definition follows the corresponding JavaScript function of the source.
-/

namespace Discotify

/-- The JavaScript whitespace class matched by the regex class backslash-s
(space, tab, line terminators, NBSP, the Unicode space separators, BOM). -/
def isJsWhitespace (c : Char) : Bool :=
  let n := c.toNat
  n = 0x20 || n = 0x09 || n = 0x0a || n = 0x0b || n = 0x0c || n = 0x0d ||
  n = 0xa0 || n = 0x1680 || (0x2000 ≤ n && n ≤ 0x200a) ||
  n = 0x2028 || n = 0x2029 || n = 0x202f || n = 0x205f || n = 0x3000 || n = 0xfeff

/-- A JavaScript line terminator (not matched by the regex dot). -/
def isLineTerminator (c : Char) : Bool :=
  c.toNat = 0x0a || c.toNat = 0x0d || c.toNat = 0x2028 || c.toNat = 0x2029

/-- What the JavaScript regex dot matches: any character except a line terminator. -/
def jsDot (c : Char) : Bool := !isLineTerminator c

/-- The JavaScript word-character class (ASCII letters, digits, underscore). -/
def isWordChar (c : Char) : Bool := c.isAlpha || c.isDigit || c = '_'

/-- JavaScript String.prototype.trim: strip whitespace and line terminators
from both ends. -/
def jsTrim (cs : List Char) : List Char :=
  ((cs.dropWhile isJsWhitespace).reverse.dropWhile isJsWhitespace).reverse

/-- One step of the global replacement of whitespace runs by a single space
(the source's final cleanup regex). The Boolean records whether the previous
character was part of a whitespace run already replaced. -/
def collapseWsAux : List Char → Bool → List Char
  | [], _ => []
  | c :: rest, prevWs =>
    if isJsWhitespace c then
      if prevWs then collapseWsAux rest true
      else ' ' :: collapseWsAux rest true
    else c :: collapseWsAux rest false

/-- Global replacement of every whitespace run by a single space. -/
def collapseWs (cs : List Char) : List Char := collapseWsAux cs false

/-- `normalizeForComparison` from the source: guard on the falsy string, ASCII
lowercase, Unicode NFD decomposition (modelled as the identity: every string
this development evaluates it on is ASCII, hence NFD-invariant), removal of
the combining marks U+0300 to U+036F, replacement of every character outside
the word/whitespace classes by a space, whitespace collapsing, trim. -/
def normalizeForComparison (s : String) : String :=
  if s = "" then ""
  else
    let cs := s.data.map Char.toLower
    let cs := cs.filter (fun c => !(0x300 ≤ c.toNat && c.toNat ≤ 0x36f))
    let cs := cs.map (fun c => if isWordChar c || isJsWhitespace c then c else ' ')
    String.mk (jsTrim (collapseWs cs))

/-- `getBigrams` from the source: the set of contiguous two-character
substrings (`substring(i, i+2)` for `0 ≤ i < length - 1`); a JavaScript `Set`,
hence de-duplicated. -/
def getBigrams (s : String) : Finset String :=
  ((List.range (s.length - 1)).map (fun i => String.mk ((s.data.drop i).take 2))).toFinset

/-- `fuzzyMatch` from the source (the Dice bigram coefficient). The loop
`for (const bigram of bigrams1) if (bigrams2.has(bigram)) matches++` counts
exactly the intersection of the two sets. Where JavaScript's division by a
zero denominator yields NaN, rational division yields 0; the zero-denominator
case is therefore tracked separately by the theorems below. -/
def fuzzyMatch (str1 str2 : String) : ℚ :=
  if str1 = "" || str2 = "" then 0
  else if str1 = str2 then 1
  else
    let bigrams1 := getBigrams str1
    let bigrams2 := getBigrams str2
    (2 * ((bigrams1 ∩ bigrams2).card : ℚ)) / ((bigrams1.card : ℚ) + (bigrams2.card : ℚ))

/-! ## `cleanSearchTerm`

The source applies, in order, the global regex replacements
trailing parenthesized digits, bracketed spans, five keyword-bearing
parenthesized spans (case-insensitive), curly-quote straightening, whitespace
collapsing, and a final trim. Each replacement is embedded below with the
JavaScript leftmost-match, lazy-star and global-continuation semantics. -/

/-- The first regex of `cleanSearchTerm`: the end-anchored pattern of optional
whitespace, an open paren, one or more digits, a close paren and trailing
whitespace is removed (globally, but end anchoring admits at most one match). -/
def stripTrailingDisambig (cs : List Char) : List Char :=
  let r := cs.reverse.dropWhile isJsWhitespace
  match r with
  | ')' :: r1 =>
    let ds := r1.takeWhile Char.isDigit
    if ds.isEmpty then cs
    else
      match r1.dropWhile Char.isDigit with
      | '(' :: r3 => (r3.dropWhile isJsWhitespace).reverse
      | _ => cs
  | _ => cs

/-- Try to match the bracket pattern (optional whitespace, an open bracket, a
lazy dot-star, a close bracket, optional whitespace) at the head of `cs`; on
success return what follows the match. The lazy star stops at the first close
bracket and the dot cannot cross a line terminator. -/
def matchBracketAt (cs : List Char) : Option (List Char) :=
  match cs.dropWhile isJsWhitespace with
  | '[' :: rest =>
    match rest.dropWhile (fun c => jsDot c && c ≠ ']') with
    | ']' :: tail => some (tail.dropWhile isJsWhitespace)
    | _ => none
  | _ => none

/-- Left-to-right global scan removing every bracket-pattern match. The fuel
starts at the length of the list; every recursive call consumes at least one
character, so the fuel never runs out before the scan completes. -/
def stripBracketsAux : Nat → List Char → List Char
  | 0, cs => cs
  | _ + 1, [] => []
  | fuel + 1, c :: rest =>
    match matchBracketAt (c :: rest) with
    | some tail => stripBracketsAux fuel tail
    | none => c :: stripBracketsAux fuel rest

/-- The second regex of `cleanSearchTerm`: global removal of bracketed spans. -/
def stripBrackets (cs : List Char) : List Char := stripBracketsAux cs.length cs

/-- Case-insensitive match of the literal `kw` (given lowercase) at the head
of `cs`, returning what follows on success. -/
def ciMatchAt (kw : List Char) (cs : List Char) : Option (List Char) :=
  match kw, cs with
  | [], rest => some rest
  | _ :: _, [] => none
  | k :: ks, c :: rest => if c.toLower = k then ciMatchAt ks rest else none

/-- Inside a parenthesized span: the lazy dot-star followed by the keyword,
then a lazy dot-star up to the first close paren. Backtracking over the first
lazy star scans for successive keyword occurrences; characters it consumes
must be matched by the dot. -/
def findKwThenClose (kw : List Char) : List Char → Option (List Char)
  | [] => none
  | c :: rest =>
    match ciMatchAt kw (c :: rest) with
    | some afterKw =>
      match afterKw.dropWhile (fun d => jsDot d && d ≠ ')') with
      | ')' :: tail => some tail
      | _ => if jsDot c then findKwThenClose kw rest else none
    | none => if jsDot c then findKwThenClose kw rest else none

/-- Try to match the keyword-paren pattern (optional whitespace, open paren,
lazy dot-star, keyword, lazy dot-star, close paren, optional whitespace) at
the head of `cs`. -/
def matchParenKwAt (kw : List Char) (cs : List Char) : Option (List Char) :=
  match cs.dropWhile isJsWhitespace with
  | '(' :: rest =>
    match findKwThenClose kw rest with
    | some tail => some (tail.dropWhile isJsWhitespace)
    | none => none
  | _ => none

/-- Left-to-right global scan removing every keyword-paren match (fueled as in
`stripBracketsAux`). -/
def stripParenKwAux (kw : List Char) : Nat → List Char → List Char
  | 0, cs => cs
  | _ + 1, [] => []
  | fuel + 1, c :: rest =>
    match matchParenKwAt kw (c :: rest) with
    | some tail => stripParenKwAux kw fuel tail
    | none => c :: stripParenKwAux kw fuel rest

/-- One keyword-paren global replacement of `cleanSearchTerm` (the source has
five, for edition, remaster, version, deluxe, bonus). -/
def stripParenKw (kw : String) (cs : List Char) : List Char :=
  stripParenKwAux kw.data cs.length cs

/-- Straighten curly single and double quotes (the two character-class
replacements of the source). -/
def normalizeQuotes (cs : List Char) : List Char :=
  cs.map (fun c =>
    if c.toNat = 0x2018 || c.toNat = 0x2019 then '\''
    else if c.toNat = 0x201c || c.toNat = 0x201d then '"'
    else c)

/-- `cleanSearchTerm` from the source. The argument models the JavaScript
string-or-null parameter; the falsy guard returns the empty string for null
and for the empty string. The model is a total function: no input throws. -/
def cleanSearchTerm (term : Option String) : String :=
  match term with
  | none => ""
  | some s =>
    if s = "" then ""
    else
      let cs := stripTrailingDisambig s.data
      let cs := stripBrackets cs
      let cs := stripParenKw "edition" cs
      let cs := stripParenKw "remaster" cs
      let cs := stripParenKw "version" cs
      let cs := stripParenKw "deluxe" cs
      let cs := stripParenKw "bonus" cs
      let cs := normalizeQuotes cs
      String.mk (jsTrim (collapseWs cs))

/-! ## Match ranker (`findBestAlbumMatch`) -/

/-- An artist record of a candidate album returned by the catalog. -/
structure SpotifyArtist where
  name : String
deriving DecidableEq

/-- A candidate album record returned by the catalog search (the fields the
source reads). -/
structure SpotifyAlbum where
  id : String
  uri : String
  name : String
  artists : List SpotifyArtist
  album_type : String
  total_tracks : Nat
  images : List String
  external_url : Option String
deriving DecidableEq

/-- The match object the source builds from the best-scoring album. -/
structure AlbumMatch where
  uri : String
  id : String
  type : String
  name : String
  artist : Option String
  image : Option String
  url : Option String
  totalTracks : Nat
deriving DecidableEq

/-- Is `pre` a prefix of `l` (Boolean, character lists). -/
def isPrefixB : List Char → List Char → Bool
  | [], _ => true
  | _ :: _, [] => false
  | a :: as, b :: bs => a = b && isPrefixB as bs

/-- Is `needle` a contiguous substring of `hay`. -/
def containsSub (hay needle : List Char) : Bool :=
  match hay with
  | [] => needle.isEmpty
  | _ :: rest => isPrefixB needle hay || containsSub rest needle

/-- JavaScript `a.includes(b)`. -/
def jsIncludes (a b : String) : Bool := containsSub a.data b.data

/-- The additive score the source assigns to one candidate album: an album-name
family (exact 100 / containment 60 / fuzzy 40, first rule only), an artist
family (exact-or-containment 50, else fuzzy 25), the album-type bonus or
penalty, and the track-count bonus. -/
def scoreAlbum (normalizedArtist normalizedAlbum : String) (album : SpotifyAlbum) : Int :=
  let albumName := normalizeForComparison album.name
  let artistNames := album.artists.map (fun a => normalizeForComparison a.name)
  let nameScore : Int :=
    if albumName = normalizedAlbum then 100
    else if jsIncludes albumName normalizedAlbum || jsIncludes normalizedAlbum albumName then 60
    else if fuzzyMatch albumName normalizedAlbum > 7/10 then 40
    else 0
  let artistMatch := artistNames.any (fun n =>
    n = normalizedArtist || jsIncludes n normalizedArtist || jsIncludes normalizedArtist n)
  let artistScore : Int :=
    if artistMatch then 50
    else if artistNames.any (fun n => fuzzyMatch n normalizedArtist > 7/10) then 25
    else 0
  let typeScore : Int :=
    if album.album_type = "album" then 15
    else if album.album_type = "single" then -10
    else if album.album_type = "compilation" then -5
    else 0
  let trackScore : Int := if album.total_tracks ≥ 8 then 5 else 0
  nameScore + artistScore + typeScore + trackScore

/-- The first element attaining the maximal score: the head of the source's
stable sort of the scored list in descending score order. -/
def bestScored : List (SpotifyAlbum × Int) → Option (SpotifyAlbum × Int)
  | [] => none
  | x :: rest =>
    match bestScored rest with
    | none => some x
    | some y => if y.2 > x.2 then some y else some x

/-- The match object the source returns for the accepted best album. -/
def toAlbumMatch (album : SpotifyAlbum) : AlbumMatch :=
  { uri := album.uri, id := album.id, type := "album", name := album.name,
    artist := (album.artists.head?).map SpotifyArtist.name,
    image := album.images.head?,
    url := album.external_url,
    totalTracks := album.total_tracks }

/-- `findBestAlbumMatch` from the source: normalize the expected terms, score
every candidate, take the best scorer (ties by original order) and accept it
only when its score reaches 50. -/
def findBestAlbumMatch (albums : List SpotifyAlbum) (expectedArtist expectedAlbum : String) :
    Option AlbumMatch :=
  let normalizedArtist := normalizeForComparison expectedArtist
  let normalizedAlbum := normalizeForComparison expectedAlbum
  let scored := albums.map (fun a => (a, scoreAlbum normalizedArtist normalizedAlbum a))
  match bestScored scored with
  | some best => if best.2 ≥ 50 then some (toAlbumMatch best.1) else none
  | none => none

/-- The single-candidate example of the spec's ranker property. -/
def meddleAlbum : SpotifyAlbum :=
  { id := "id1", uri := "spotify:album:id1", name := "Meddle",
    artists := [{ name := "Pink Floyd" }], album_type := "album",
    total_tracks := 6, images := [], external_url := none }

/-! ## Token/credential manager -/

/-- JavaScript falsiness of a string-or-null variable: null and the empty
string are falsy. -/
def jsFalsy : Option String → Bool
  | none => true
  | some s => s = ""

/-- The module-level mutable state of the service worker together with the
durable-storage keys it writes (`spotifyToken`, `spotifyTokenExpires`).
Timestamps are milliseconds as returned by `Date.now()`. -/
structure TokenState where
  clientId : Option String
  clientSecret : Option String
  accessToken : Option String
  tokenExpiresAt : Option Int
  storedToken : Option String
  storedTokenExpires : Option Int
deriving DecidableEq

/-- The response of one token-exchange request. -/
inductive TokenResponse where
  | ok (access_token : String) (expires_in : Int)
  | httpError (status : Nat)
deriving DecidableEq

/-- How a call to `getClientCredentialsToken` finishes: it returns a Boolean
or it throws (the non-ok HTTP branch). -/
inductive ExchangeOutcome where
  | returned (b : Bool)
  | threw
deriving DecidableEq

/-- `getClientCredentialsToken` from the source: with falsy credentials it
returns false; an error response throws; a success response stores the token
and an expiry of now plus the server lifetime in milliseconds minus the
60-second margin, both in memory and in durable storage, and returns true. -/
def getClientCredentialsToken (st : TokenState) (now : Int) (resp : TokenResponse) :
    TokenState × ExchangeOutcome :=
  if jsFalsy st.clientId || jsFalsy st.clientSecret then
    (st, .returned false)
  else
    match resp with
    | .httpError _ => (st, .threw)
    | .ok tok expiresIn =>
      let expiresAt := now + expiresIn * 1000 - 60000
      ({ st with accessToken := some tok, tokenExpiresAt := some expiresAt,
                 storedToken := some tok, storedTokenExpires := some expiresAt },
       .returned true)

/-- `ensureValidToken` from the source; the third component counts the token
exchanges performed by the call (zero or one). A null `tokenExpiresAt`
compares as zero, as JavaScript coerces null in `Date.now() >= tokenExpiresAt`. -/
def ensureValidToken (st : TokenState) (now : Int) (resp : TokenResponse) :
    TokenState × ExchangeOutcome × Nat :=
  if jsFalsy st.clientId || jsFalsy st.clientSecret then
    (st, .returned false, 0)
  else if jsFalsy st.accessToken || now ≥ st.tokenExpiresAt.getD 0 then
    let (st', o) := getClientCredentialsToken st now resp
    (st', o, 1)
  else
    (st, .returned true, 0)

/-- The `GET_AUTH_STATUS` listener: the pair (isAuthenticated, isConfigured). -/
def getAuthStatus (st : TokenState) (now : Int) : Bool × Bool :=
  let isConfigured := !(jsFalsy st.clientId) && !(jsFalsy st.clientSecret)
  let isAuthenticated :=
    isConfigured && !(jsFalsy st.accessToken) && decide (now < st.tokenExpiresAt.getD 0)
  (isAuthenticated, isConfigured)

/-- A configured state with no token yet, used as concrete input. -/
def configuredState : TokenState :=
  { clientId := some "cid", clientSecret := some "csec", accessToken := none,
    tokenExpiresAt := none, storedToken := none, storedTokenExpires := none }

/-! ## Search orchestrator (`handleSpotifySearch`) -/

/-- The catalog environment: the result set each query returns. -/
def Catalog : Type := String → List SpotifyAlbum

/-- The pure content of one `searchAlbums` call on its success path: one
catalog request for the query, the empty-result guard, then the ranker. -/
def searchAlbumsPure (env : Catalog) (query expectedArtist expectedAlbum : String) :
    Option AlbumMatch :=
  let albums := env query
  if albums.isEmpty then none
  else findBestAlbumMatch albums expectedArtist expectedAlbum

/-- The metadata payload of a search request (fields may be null). -/
structure Metadata where
  artist : Option String
  album : Option String

/-- The four query strings of the source's strategy list, in source order:
quoted field-qualified, unquoted field-qualified, bare concatenation, bare
quoted album. -/
def strategyQueries (cleanArtist cleanAlbum : String) : List String :=
  ["album:\"" ++ cleanAlbum ++ "\" artist:\"" ++ cleanArtist ++ "\"",
   "album:" ++ cleanAlbum ++ " artist:" ++ cleanArtist,
   cleanArtist ++ " " ++ cleanAlbum,
   "\"" ++ cleanAlbum ++ "\""]

/-- The source's strategy loop: issue each query in order, stop at the first
accepted match. The second component is the trace of queries actually issued. -/
def runStrategies (env : Catalog) (a b : String) : List String → Option AlbumMatch × List String
  | [] => (none, [])
  | q :: rest =>
    match searchAlbumsPure env q a b with
    | some r => (some r, [q])
    | none =>
      let p := runStrategies env a b rest
      (p.1, q :: p.2)

/-- `handleSpotifySearch` from the source, with `ensureValidToken`'s success
abstracted to the Boolean `hasToken` and each strategy's catalog call given by
`env`. The guard tests the raw metadata fields for falsiness before any
cleaning. The second component is the trace of catalog queries issued. -/
def handleSpotifySearch (hasToken : Bool) (env : Catalog) (md : Metadata) :
    Option AlbumMatch × List String :=
  if !hasToken then (none, [])
  else if jsFalsy md.artist && jsFalsy md.album then (none, [])
  else
    let cleanArtist := cleanSearchTerm md.artist
    let cleanAlbum := cleanSearchTerm md.album
    runStrategies env cleanArtist cleanAlbum (strategyQueries cleanArtist cleanAlbum)

/-! ## `searchAlbums` under 401 responses -/

/-- The response of one catalog search request. -/
inductive SearchResp where
  | ok (albums : List SpotifyAlbum)
  | httpError (status : Nat)

/-- `searchAlbums` from the source, run against an environment giving the
response of the n-th request of the call chain and the success of the n-th
token re-exchange. On a 401 the source clears the token, re-exchanges, and on
success retries by a full recursive call with no retry counter; the model
makes the recursion depth explicit with fuel. The value is `none` when the
recursion exceeds the fuel, and otherwise the returned match together with
the number of token exchanges performed. -/
def searchAlbumsFuel (env : Nat → SearchResp) (refreshOk : Nat → Bool)
    (expectedArtist expectedAlbum : String) :
    Nat → Nat → Option (Option AlbumMatch × Nat)
  | 0, _ => none
  | fuel + 1, attempt =>
    match env attempt with
    | .ok albums =>
      if albums.isEmpty then some (none, 0)
      else some (findBestAlbumMatch albums expectedArtist expectedAlbum, 0)
    | .httpError status =>
      if status = 401 then
        if refreshOk attempt then
          match searchAlbumsFuel env refreshOk expectedArtist expectedAlbum fuel (attempt + 1) with
          | some (r, n) => some (r, n + 1)
          | none => none
        else some (none, 1)
      else some (none, 0)

/-! ## Concrete inputs used by witnesses and counterexamples -/

/-- A catalog returning no results for any query. -/
def emptyCatalog : Catalog := fun _ => []

/-- A catalog returning the Meddle candidate for any query. -/
def oneAlbumCatalog : Catalog := fun _ => [meddleAlbum]

/-- The metadata of the spec's ranker example. -/
def mdPF : Metadata := { artist := some "Pink Floyd", album := some "Meddle" }

/-- A configured state holding an unexpired token. -/
def authState : TokenState :=
  { clientId := some "cid", clientSecret := some "csec", accessToken := some "tok",
    tokenExpiresAt := some 1000, storedToken := none, storedTokenExpires := none }

/-! ## Helper lemmas -/

theorem runStrategies_issued_in_order (env : Catalog) (a b : String) (qs : List String) :
    (runStrategies env a b qs).2 <+: qs := by
  induction qs with
  | nil => simp [runStrategies]
  | cons q rest ih =>
    simp only [runStrategies]
    cases h : searchAlbumsPure env q a b with
    | some r => exact ⟨rest, rfl⟩
    | none =>
      obtain ⟨t, ht⟩ := ih
      refine ⟨t, ?_⟩
      show (q :: (runStrategies env a b rest).2) ++ t = q :: rest
      rw [List.cons_append, ht]

theorem runStrategies_failed_before_last (env : Catalog) (a b : String) (qs : List String) :
    ∀ q ∈ (runStrategies env a b qs).2.dropLast, searchAlbumsPure env q a b = none := by
  induction qs with
  | nil => simp [runStrategies]
  | cons q rest ih =>
    simp only [runStrategies]
    cases h : searchAlbumsPure env q a b with
    | some r => simp
    | none =>
      intro q' hq'
      cases htr : (runStrategies env a b rest).2 with
      | nil => simp [htr] at hq'
      | cons x xs =>
        rw [htr, List.dropLast_cons₂] at hq'
        rcases List.mem_cons.mp hq' with rfl | hq'
        · exact h
        · exact ih q' (by rw [htr]; exact hq')

theorem runStrategies_first_accepted (env : Catalog) (a b q : String) (rest : List String)
    (r : AlbumMatch) (h : searchAlbumsPure env q a b = some r) :
    runStrategies env a b (q :: rest) = (some r, [q]) := by
  simp [runStrategies, h]

theorem getBigrams_card_pos (s : String) (h : 2 ≤ s.length) : 0 < (getBigrams s).card := by
  apply Finset.card_pos.mpr
  refine ⟨String.mk (s.data.take 2), ?_⟩
  unfold getBigrams
  rw [List.mem_toFinset]
  apply List.mem_map.mpr
  refine ⟨0, ?_, by simp⟩
  rw [List.mem_range]
  omega

theorem ensureValidToken_configured (st : TokenState) (now : Int) (resp : TokenResponse)
    (hid : jsFalsy st.clientId = false) (hsec : jsFalsy st.clientSecret = false)
    (hacc : jsFalsy st.accessToken = false) :
    ensureValidToken st now resp =
      if now ≥ st.tokenExpiresAt.getD 0 then
        ((getClientCredentialsToken st now resp).1, (getClientCredentialsToken st now resp).2, 1)
      else (st, .returned true, 0) := by
  unfold ensureValidToken
  rw [hid, hsec, hacc]
  simp

/-! ## Claim theorems -/

/-- C1: for the single Meddle candidate ranked against the expected artist
Pink Floyd and album Meddle, the ranker assigns the score 165 (hence at least
165: 100 exact album name + 50 exact artist + 15 album type), and since 165
is at least the acceptance threshold 50 the candidate is returned rather than
null. -/
theorem C1_meddle_ranked_and_accepted :
    scoreAlbum (normalizeForComparison "Pink Floyd") (normalizeForComparison "Meddle")
        meddleAlbum = 165 ∧
    findBestAlbumMatch [meddleAlbum] "Pink Floyd" "Meddle" = some (toAlbumMatch meddleAlbum) := by
  constructor
  · decide
  · decide

/-- C2: with a token available and at least one non-falsy metadata field, the
orchestrator issues the strategy queries strictly in source order (the trace
of issued queries is a prefix of the strategy list), every issued query
before the last yielded no accepted match, and if the first (quoted
field-qualified) strategy yields an accepted match the whole search returns
it after that single catalog call, so strategy 3's network call is never
issued. -/
theorem C2_cascade_in_order (env : Catalog) (md : Metadata)
    (h : (jsFalsy md.artist && jsFalsy md.album) = false) :
    ((handleSpotifySearch true env md).2
        <+: strategyQueries (cleanSearchTerm md.artist) (cleanSearchTerm md.album)) ∧
    (∀ q ∈ (handleSpotifySearch true env md).2.dropLast,
        searchAlbumsPure env q (cleanSearchTerm md.artist) (cleanSearchTerm md.album) = none) ∧
    (∀ r : AlbumMatch,
      searchAlbumsPure env
          (strategyQueries (cleanSearchTerm md.artist) (cleanSearchTerm md.album)).headI
          (cleanSearchTerm md.artist) (cleanSearchTerm md.album) = some r →
      handleSpotifySearch true env md
        = (some r,
           [(strategyQueries (cleanSearchTerm md.artist) (cleanSearchTerm md.album)).headI])) := by
  have hh : handleSpotifySearch true env md
      = runStrategies env (cleanSearchTerm md.artist) (cleanSearchTerm md.album)
          (strategyQueries (cleanSearchTerm md.artist) (cleanSearchTerm md.album)) := by
    simp [handleSpotifySearch, h]
  rw [hh]
  refine ⟨runStrategies_issued_in_order _ _ _ _, runStrategies_failed_before_last _ _ _ _, ?_⟩
  intro r hr
  exact runStrategies_first_accepted _ _ _ _ _ r hr

/-- C2 witness: for the Meddle metadata against a catalog whose first call
already returns the accepted Meddle candidate, the search returns it with a
trace of exactly one query. -/
theorem C2_cascade_in_order_witness :
    handleSpotifySearch true oneAlbumCatalog mdPF
      = (some (toAlbumMatch meddleAlbum),
         [(strategyQueries (cleanSearchTerm mdPF.artist) (cleanSearchTerm mdPF.album)).headI]) :=
  (C2_cascade_in_order oneAlbumCatalog mdPF (by decide)).2.2 (toAlbumMatch meddleAlbum) (by decide)

/-- C3: the claim is right and the code is wrong. Under an environment where
every search request is answered 401 while every token re-exchange succeeds,
the source's retry (a full recursive call with no retry counter) exceeds
every finite recursion bound: for every fuel value the model reports the
fuel exhausted, so the code performs unboundedly many re-exchanges and
retries instead of exactly one. -/
theorem C3_persistent_401_unbounded (a b : String) (fuel attempt : Nat) :
    searchAlbumsFuel (fun _ => .httpError 401) (fun _ => true) a b fuel attempt = none := by
  induction fuel generalizing attempt with
  | zero => rfl
  | succ n ih => simp [searchAlbumsFuel, ih]

/-- C4: whenever the token exchange succeeds at time `now` with server field
`expires_in` seconds, the cached expiry is exactly
`now + expires_in * 1000 - 60000` milliseconds and the same value is written
to durable storage, and the call returns true. -/
theorem C4_expiry_cached_and_stored (st : TokenState) (now expiresIn : Int) (tok : String)
    (hid : jsFalsy st.clientId = false) (hsec : jsFalsy st.clientSecret = false) :
    ((getClientCredentialsToken st now (.ok tok expiresIn)).1.tokenExpiresAt
        = some (now + expiresIn * 1000 - 60000)) ∧
    ((getClientCredentialsToken st now (.ok tok expiresIn)).1.storedTokenExpires
        = some (now + expiresIn * 1000 - 60000)) ∧
    (getClientCredentialsToken st now (.ok tok expiresIn)).2 = .returned true := by
  simp [getClientCredentialsToken, hid, hsec]

/-- C4 witness: a successful exchange in the configured state at time 0 with
a 3600-second lifetime caches and stores the expiry 3540000. -/
theorem C4_expiry_cached_and_stored_witness :
    ((getClientCredentialsToken configuredState 0 (.ok "tok" 3600)).1.tokenExpiresAt
        = some (0 + 3600 * 1000 - 60000)) ∧
    ((getClientCredentialsToken configuredState 0 (.ok "tok" 3600)).1.storedTokenExpires
        = some (0 + 3600 * 1000 - 60000)) ∧
    (getClientCredentialsToken configuredState 0 (.ok "tok" 3600)).2 = .returned true :=
  C4_expiry_cached_and_stored configuredState 0 3600 "tok" (by decide) (by decide)

/-- C5 counterexample: after a successful exchange at time 0 with
`expires_in = 3600`, the cached expiry is 3540000 (the 60-second margin), so
a call to `ensureValidToken` at 3599000 — inside the margin — performs one
new exchange, contradicting the claim that it still returns the cached token
without a new exchange. -/
theorem C5_margin_counterexample :
    ((getClientCredentialsToken configuredState 0 (.ok "tok" 3600)).1.tokenExpiresAt
        = some 3540000) ∧
    (ensureValidToken (getClientCredentialsToken configuredState 0 (.ok "tok" 3600)).1
        3599000 (.ok "tok2" 3600)).2.2 = 1 := by
  constructor
  · decide
  · decide

/-- C5 amended: after a successful exchange at time T with
`expires_in = 3600` and a non-empty token, the cached expiry equals
T + 3540000; a call to `ensureValidToken` strictly before T + 3540000 returns
the cached token with no new exchange, and a call at or after T + 3540000
(in particular at T + 3600001) performs exactly one new exchange. -/
theorem C5_amended_token_lifecycle (st : TokenState) (T t : Int) (tok : String)
    (resp : TokenResponse)
    (hid : jsFalsy st.clientId = false) (hsec : jsFalsy st.clientSecret = false)
    (htok : tok ≠ "") :
    ((getClientCredentialsToken st T (.ok tok 3600)).1.tokenExpiresAt = some (T + 3540000)) ∧
    (t < T + 3540000 →
      ensureValidToken (getClientCredentialsToken st T (.ok tok 3600)).1 t resp
        = ((getClientCredentialsToken st T (.ok tok 3600)).1, .returned true, 0)) ∧
    (T + 3540000 ≤ t →
      (ensureValidToken (getClientCredentialsToken st T (.ok tok 3600)).1 t resp).2.2 = 1) := by
  have hst : (getClientCredentialsToken st T (.ok tok 3600)).1
      = { st with accessToken := some tok, tokenExpiresAt := some (T + 3600 * 1000 - 60000),
                  storedToken := some tok,
                  storedTokenExpires := some (T + 3600 * 1000 - 60000) } := by
    simp [getClientCredentialsToken, hid, hsec]
  have harith : T + 3600 * 1000 - 60000 = T + 3540000 := by ring
  rw [hst, harith]
  have hacc : jsFalsy (some tok) = false := by simp [jsFalsy, htok]
  refine ⟨rfl, ?_, ?_⟩
  · intro hlt
    rw [ensureValidToken_configured
        { clientId := st.clientId, clientSecret := st.clientSecret, accessToken := some tok,
          tokenExpiresAt := some (T + 3540000), storedToken := some tok,
          storedTokenExpires := some (T + 3540000) } t resp hid hsec hacc]
    rw [if_neg (by show ¬ t ≥ T + 3540000; omega)]
  · intro hle
    rw [ensureValidToken_configured
        { clientId := st.clientId, clientSecret := st.clientSecret, accessToken := some tok,
          tokenExpiresAt := some (T + 3540000), storedToken := some tok,
          storedTokenExpires := some (T + 3540000) } t resp hid hsec hacc]
    rw [if_pos (by show t ≥ T + 3540000; omega)]

/-- C5 witness: in the configured state, after the exchange at time 0, a call
at 3539000 (before the margin boundary) returns the cached token with no new
exchange. -/
theorem C5_amended_token_lifecycle_witness :
    ensureValidToken (getClientCredentialsToken configuredState 0 (.ok "tok" 3600)).1
        3539000 (.ok "tok2" 3600)
      = ((getClientCredentialsToken configuredState 0 (.ok "tok" 3600)).1,
         .returned true, 0) :=
  (C5_amended_token_lifecycle configuredState 0 3539000 "tok" (.ok "tok2" 3600)
      (by decide) (by decide) (by decide)).2.1 (by decide)

/-- C6 counterexample: the metadata fields "(2)" and "[x]" both normalize to
the empty string, yet the orchestrator does not return null immediately: it
issues all four catalog queries (the guard tests the raw fields for
falsiness, not their normalizations). -/
theorem C6_normalized_empty_counterexample :
    cleanSearchTerm (some "(2)") = "" ∧ cleanSearchTerm (some "[x]") = "" ∧
    (handleSpotifySearch true emptyCatalog { artist := some "(2)", album := some "[x]" }).2.length
      = 4 := by
  refine ⟨by decide, by decide, by decide⟩

/-- C6 amended: the orchestrator returns null immediately, issuing no catalog
query, exactly when both raw metadata fields are JavaScript-falsy (null or
the empty string); a field that is non-empty but normalizes to empty does not
trigger the guard. -/
theorem C6_amended_raw_falsy_guard (hasToken : Bool) (env : Catalog) (md : Metadata)
    (ha : jsFalsy md.artist = true) (hb : jsFalsy md.album = true) :
    handleSpotifySearch hasToken env md = (none, []) := by
  cases hasToken <;> simp [handleSpotifySearch, ha, hb]

/-- C6 witness: null artist and empty album yield an immediate null with an
empty query trace. -/
theorem C6_amended_raw_falsy_guard_witness :
    handleSpotifySearch true emptyCatalog { artist := none, album := some "" } = (none, []) :=
  C6_amended_raw_falsy_guard true emptyCatalog { artist := none, album := some "" }
    (by decide) (by decide)

/-- C7: the term normalizer satisfies the spec's examples: the trailing
parenthesized integer disambiguation suffix is stripped, a bracketed span is
stripped, and a null input yields the empty string. The embedding is a total
function, matching the source's no-throw behavior. -/
theorem C7_normalizer_examples :
    cleanSearchTerm (some "Abbey Road (2)") = "Abbey Road" ∧
    cleanSearchTerm (some "Album [Deluxe Edition]") = "Album" ∧
    cleanSearchTerm none = "" := by
  refine ⟨by decide, by decide, by decide⟩

/-- C8 counterexample: the Dice coefficient of "night" and "nite" is 2/7
(one shared bigram of four and three), which is not greater than 0.3, so the
claim's third example fails. -/
theorem C8_dice_counterexample :
    fuzzyMatch "night" "nite" = 2/7 ∧ ¬((2 : ℚ)/7 > 3/10) := by
  constructor
  · have h : fuzzyMatch "night" "nite"
        = (2 * ((getBigrams "night" ∩ getBigrams "nite").card : ℚ))
          / (((getBigrams "night").card : ℚ) + ((getBigrams "nite").card : ℚ)) := rfl
    rw [h, show (getBigrams "night" ∩ getBigrams "nite").card = 1 from by decide,
        show (getBigrams "night").card = 4 from by decide,
        show (getBigrams "nite").card = 3 from by decide]
    norm_num
  · norm_num

/-- C8 amended: the fuzzy comparator satisfies
`similarity("abcd","abcd") = 1` and `similarity("","x") = 0`, and
`similarity("night","nite")` equals 2/7 (about 0.286: greater than 0.25 but
not greater than 0.3). -/
theorem C8_amended_comparator_examples :
    fuzzyMatch "abcd" "abcd" = 1 ∧ fuzzyMatch "" "x" = 0 ∧
    fuzzyMatch "night" "nite" = 2/7 := by
  refine ⟨by decide, by decide, ?_⟩
  have h : fuzzyMatch "night" "nite"
      = (2 * ((getBigrams "night" ∩ getBigrams "nite").card : ℚ))
        / (((getBigrams "night").card : ℚ) + ((getBigrams "nite").card : ℚ)) := rfl
  rw [h, show (getBigrams "night" ∩ getBigrams "nite").card = 1 from by decide,
      show (getBigrams "night").card = 4 from by decide,
      show (getBigrams "nite").card = 3 from by decide]
  norm_num

/-- C9 counterexample: the distinct non-empty single-character strings "a"
and "b" pass both guards of the fuzzy comparator, yet their bigram sets are
both empty, so the division's denominator is zero — reachable, contrary to
the claim (JavaScript evaluates 0/0 to NaN, which is not in the interval). -/
theorem C9_zero_denominator_counterexample :
    ("a" : String) ≠ "b" ∧ ("a" : String) ≠ "" ∧ ("b" : String) ≠ "" ∧
    (getBigrams "a").card + (getBigrams "b").card = 0 := by
  refine ⟨by decide, by decide, by decide, by decide⟩

/-- C9 amended: the fuzzy comparator returns a value in [0, 1] whenever the
strings are identical, one is empty, or at least one has two or more
characters (so the bigram denominator is positive); only distinct non-empty
single-character pairs reach a zero denominator. -/
theorem C9_amended_in_unit_interval (a b : String)
    (h : a = b ∨ a = "" ∨ b = "" ∨ 2 ≤ a.length ∨ 2 ≤ b.length) :
    0 ≤ fuzzyMatch a b ∧ fuzzyMatch a b ≤ 1 := by
  unfold fuzzyMatch
  split
  · exact ⟨le_refl 0, by norm_num⟩
  · split
    · exact ⟨by norm_num, le_refl 1⟩
    · rename_i hguard heq
      have ha : a ≠ "" := fun hc => hguard (by simp [hc])
      have hb : b ≠ "" := fun hc => hguard (by simp [hc])
      have hne : a ≠ b := fun hc => heq hc
      have hlen : 2 ≤ a.length ∨ 2 ≤ b.length := by
        rcases h with h | h | h | h | h
        · exact absurd h hne
        · exact absurd h ha
        · exact absurd h hb
        · exact Or.inl h
        · exact Or.inr h
      have hpos : 0 < (getBigrams a).card + (getBigrams b).card := by
        rcases hlen with h2 | h2
        · exact Nat.lt_of_lt_of_le (getBigrams_card_pos a h2) (Nat.le_add_right _ _)
        · exact Nat.lt_of_lt_of_le (getBigrams_card_pos b h2) (Nat.le_add_left _ _)
      have hposQ : (0 : ℚ) < ((getBigrams a).card : ℚ) + ((getBigrams b).card : ℚ) := by
        exact_mod_cast hpos
      constructor
      · apply div_nonneg
        · positivity
        · exact le_of_lt hposQ
      · rw [div_le_one hposQ]
        have h1 : ((getBigrams a) ∩ (getBigrams b)).card ≤ (getBigrams a).card :=
          Finset.card_le_card (Finset.inter_subset_left)
        have h2 : ((getBigrams a) ∩ (getBigrams b)).card ≤ (getBigrams b).card :=
          Finset.card_le_card (Finset.inter_subset_right)
        have : 2 * ((getBigrams a) ∩ (getBigrams b)).card
            ≤ (getBigrams a).card + (getBigrams b).card := by omega
        exact_mod_cast this

/-- C9 witness: the pair "abcd", "x" has a four-character first component and
its similarity lies in [0, 1]. -/
theorem C9_amended_in_unit_interval_witness :
    0 ≤ fuzzyMatch "abcd" "x" ∧ fuzzyMatch "abcd" "x" ≤ 1 :=
  C9_amended_in_unit_interval "abcd" "x" (by decide)

/-- C10: the `GET_AUTH_STATUS` listener computes isAuthenticated as a
conjunction that starts from isConfigured, so every response reporting
authenticated also reports configured. -/
theorem C10_authenticated_implies_configured (st : TokenState) (now : Int)
    (h : (getAuthStatus st now).1 = true) : (getAuthStatus st now).2 = true := by
  unfold getAuthStatus at h ⊢
  simp only [Bool.and_eq_true] at h
  show (!jsFalsy st.clientId && !jsFalsy st.clientSecret) = true
  rw [Bool.and_eq_true]
  exact h.1.1

/-- C10 witness: a configured state with an unexpired token reports
authenticated and configured. -/
theorem C10_authenticated_implies_configured_witness :
    (getAuthStatus authState 0).1 = true ∧ (getAuthStatus authState 0).2 = true :=
  ⟨by decide, C10_authenticated_implies_configured authState 0 (by decide)⟩

end Discotify
